import Mathlib

/-!
Verification of the gin user endpoint layer
(`src/todo-app/internal/api/http/gin/user.go`).

The file shallowly embeds the six HTTP handlers of `userHandler` and the
route registration of `NewUserHandler`. HTTP transport details are reduced
to what the handlers control: the status code and the JSON payload passed
to gin's `Context.JSON`, plus gin's suppression of the body for statuses
that allow none. Each handler is modelled as a pure function from the
outcomes of its collaborator calls (`c.ShouldBind`, `uuid.Parse`, the
`UserService` methods) to a `Response` together with the ordered trace of
collaborator calls it actually performed, so that "the collaborator is
never invoked" is expressible as absence from the trace.
-/

namespace TodoApp

/-- A Go `error` value produced by a collaborator (`uuid.Parse`,
`c.ShouldBind`, or a `UserService` method): opaque message. -/
structure GoError where
  msg : String
deriving DecidableEq, Repr

/-- A parsed UUID as produced by `uuid.Parse` (`github.com/google/uuid`),
abstracted to its identity. -/
structure UUID where
  val : Nat
deriving DecidableEq, Repr

/-- `domain.User` (the `domain` package only supplies opaque data-transfer
shapes to `user.go`): abstracted to its identity. -/
structure User where
  val : Nat
deriving DecidableEq, Repr

/-- `tokenprovider.Token`: opaque token returned by `UserService.Login`. -/
structure Token where
  val : Nat
deriving DecidableEq, Repr

/-- `domain.UserCreate`: the register body. `ID` is the field the service
populates in place on a successful `Register` call (the handler reads
`data.ID` afterwards); the remaining fields are abstracted to `payload`. -/
structure UserCreate where
  ID : UUID
  payload : Nat
deriving DecidableEq, Repr

/-- `domain.UserLogin`: the login body, abstracted to its identity. -/
structure UserLogin where
  payload : Nat
deriving DecidableEq, Repr

/-- `domain.UserUpdate`: the update body, abstracted to its identity. -/
structure UserUpdate where
  payload : Nat
deriving DecidableEq, Repr

/-- A value carried inside a success payload. -/
inductive Value where
  | id (u : UUID)
  | token (t : Token)
  | users (l : List User)
  | user (u : User)
deriving DecidableEq, Repr

/-- The JSON payload a handler passes to `c.JSON`:
`errInvalid e` is the value `clients.ErrInvalidRequest(e)`,
`simpleSuccess v` is the value `clients.SimpleSuccessResponse(v)`,
`raw e` is the bare error value `e` written unchanged,
`dataWrap v` is `gin.H{"data": v}`,
`nilPayload` is Go `nil`. The constructors are distinct because the
wrapped shapes are distinct JSON objects on the wire. -/
inductive Payload where
  | errInvalid (e : GoError)
  | simpleSuccess (v : Value)
  | raw (e : GoError)
  | dataWrap (v : Value)
  | nilPayload
deriving DecidableEq, Repr

/-- Modelled from the spec: `clients.ErrInvalidRequest` (package
`todo-app/pkg/clients`, outside the provided sources) builds the uniform
invalid-request error envelope wrapping the underlying parse/validation
error. Modelled as an injective wrapper around the error. -/
def ErrInvalidRequest (e : GoError) : Payload := Payload.errInvalid e

/-- Modelled from the spec: `clients.SimpleSuccessResponse` (package
`todo-app/pkg/clients`, outside the provided sources) builds the uniform
success envelope around a value. Modelled as an injective wrapper. -/
def SimpleSuccessResponse (v : Value) : Payload := Payload.simpleSuccess v

/-- `net/http` status constants used by `user.go`. -/
def StatusOK : Nat := 200

/-- `net/http.StatusCreated`. -/
def StatusCreated : Nat := 201

/-- `net/http.StatusNoContent`. -/
def StatusNoContent : Nat := 204

/-- `net/http.StatusBadRequest`. -/
def StatusBadRequest : Nat := 400

/-- `net/http.bodyAllowedForStatus`: statuses 1xx, 204 and 304 carry no
response body; gin's render honours this. -/
def bodyAllowedForStatus (status : Nat) : Bool :=
  if 100 ≤ status ∧ status ≤ 199 then false
  else if status = 204 then false
  else if status = 304 then false
  else true

/-- The observable HTTP response a handler produces: the status code and
the serialised body (`none` for an empty body). -/
structure Response where
  status : Nat
  body : Option Payload
deriving DecidableEq, Repr

/-- gin's `Context.JSON`: sets the status and serialises the payload as
the body, except that for statuses that allow no body (1xx, 204, 304)
gin writes no body at all. `DeleteUserHandler` relies on this for its
`c.JSON(http.StatusNoContent, nil)` response. -/
def ginJSON (status : Nat) (p : Payload) : Response :=
  if bodyAllowedForStatus status then ⟨status, some p⟩ else ⟨status, none⟩

/-- A collaborator call a handler can make, recorded in order. -/
inductive Call where
  | uuidParse
  | bind
  | svcRegister
  | svcLogin
  | svcGetAll
  | svcGetById
  | svcUpdate
  | svcDelete
deriving DecidableEq, Repr

/-- The `UserService` interface of `user.go`, with each Go method modelled
as a pure function. `Register(data *domain.UserCreate) error` mutates
`data` in place (populating `data.ID`) and returns an error or nil, so it
is modelled as returning either the error or the updated `UserCreate`.
`UpdateUser`/`DeleteUser` return only an error or nil (`some err`/`none`). -/
structure UserServiceM where
  register : UserCreate → Except GoError UserCreate
  login : UserLogin → Except GoError Token
  getAllUser : Except GoError (List User)
  updateUser : UUID → UserUpdate → Option GoError
  deleteUser : UUID → Option GoError
  getByIdUser : UUID → Except GoError User

/-- `userHandler.RegisterUserHandler`. `bindResult` is the outcome
`c.ShouldBind(&data)` yields for this request (error, or the bound
`UserCreate`). Returns the response and the trace of collaborator calls. -/
def RegisterUserHandler (svc : UserServiceM)
    (bindResult : Except GoError UserCreate) : Response × List Call :=
  match bindResult with
  | Except.error err =>
      (ginJSON StatusBadRequest (ErrInvalidRequest err), [Call.bind])
  | Except.ok data =>
      match svc.register data with
      | Except.error err =>
          (ginJSON StatusBadRequest (Payload.raw err),
           [Call.bind, Call.svcRegister])
      | Except.ok data' =>
          (ginJSON StatusCreated (SimpleSuccessResponse (Value.id data'.ID)),
           [Call.bind, Call.svcRegister])

/-- `userHandler.LoginHandler`. -/
def LoginHandler (svc : UserServiceM)
    (bindResult : Except GoError UserLogin) : Response × List Call :=
  match bindResult with
  | Except.error err =>
      (ginJSON StatusBadRequest (ErrInvalidRequest err), [Call.bind])
  | Except.ok data =>
      match svc.login data with
      | Except.error err =>
          (ginJSON StatusBadRequest (Payload.raw err),
           [Call.bind, Call.svcLogin])
      | Except.ok token =>
          (ginJSON StatusOK (SimpleSuccessResponse (Value.token token)),
           [Call.bind, Call.svcLogin])

/-- `userHandler.GetAllhandler`. Note the source wraps a failing
`GetAllUser` in `clients.ErrInvalidRequest`, unlike the other handlers. -/
def GetAllhandler (svc : UserServiceM) : Response × List Call :=
  match svc.getAllUser with
  | Except.error err =>
      (ginJSON StatusBadRequest (ErrInvalidRequest err), [Call.svcGetAll])
  | Except.ok users =>
      (ginJSON StatusOK (SimpleSuccessResponse (Value.users users)),
       [Call.svcGetAll])

/-- `userHandler.GetUserhandler`. `parseResult` is the outcome
`uuid.Parse(c.Param("id"))` yields for this request's path segment. -/
def GetUserhandler (svc : UserServiceM)
    (parseResult : Except GoError UUID) : Response × List Call :=
  match parseResult with
  | Except.error err =>
      (ginJSON StatusBadRequest (ErrInvalidRequest err), [Call.uuidParse])
  | Except.ok id =>
      match svc.getByIdUser id with
      | Except.error err =>
          (ginJSON StatusBadRequest (Payload.raw err),
           [Call.uuidParse, Call.svcGetById])
      | Except.ok user =>
          (ginJSON StatusOK (Payload.dataWrap (Value.user user)),
           [Call.uuidParse, Call.svcGetById])

/-- `userHandler.UpdateUserHandler`: `uuid.Parse` first, then
`c.ShouldBind`, then `UpdateUser`. -/
def UpdateUserHandler (svc : UserServiceM)
    (parseResult : Except GoError UUID)
    (bindResult : Except GoError UserUpdate) : Response × List Call :=
  match parseResult with
  | Except.error err =>
      (ginJSON StatusBadRequest (ErrInvalidRequest err), [Call.uuidParse])
  | Except.ok id =>
      match bindResult with
      | Except.error err =>
          (ginJSON StatusBadRequest (ErrInvalidRequest err),
           [Call.uuidParse, Call.bind])
      | Except.ok data =>
          match svc.updateUser id data with
          | some err =>
              (ginJSON StatusBadRequest (Payload.raw err),
               [Call.uuidParse, Call.bind, Call.svcUpdate])
          | none =>
              (ginJSON StatusOK (SimpleSuccessResponse (Value.id id)),
               [Call.uuidParse, Call.bind, Call.svcUpdate])

/-- `userHandler.DeleteUserHandler`. -/
def DeleteUserHandler (svc : UserServiceM)
    (parseResult : Except GoError UUID) : Response × List Call :=
  match parseResult with
  | Except.error err =>
      (ginJSON StatusBadRequest (ErrInvalidRequest err), [Call.uuidParse])
  | Except.ok id =>
      match svc.deleteUser id with
      | some err =>
          (ginJSON StatusBadRequest (Payload.raw err),
           [Call.uuidParse, Call.svcDelete])
      | none =>
          (ginJSON StatusNoContent Payload.nilPayload,
           [Call.uuidParse, Call.svcDelete])

/-- Tags for the handlers appearing in `NewUserHandler`'s route chains. -/
inductive HandlerTag where
  | middlewareAuth
  | registerUserH
  | loginH
  | getAllH
  | getUserH
  | updateUserH
  | deleteUserH
deriving DecidableEq, Repr

/-- A registered route: method, path and the handler chain gin executes in
list order (group middleware snapshot followed by the endpoint handler). -/
structure Route where
  method : String
  path : String
  chain : List HandlerTag
deriving DecidableEq, Repr

/-- `NewUserHandler`: gin route registration. `base` is the middleware
already installed on the injected `apiVersion` group; `Group("/users")`
copies it; each registration snapshots the group's current handler list
followed by the endpoint handler; `users.Use(middlewareAuth)` appends the
authentication middleware, affecting only routes registered after it. -/
def NewUserHandler (base : List HandlerTag) : List Route :=
  let g0 := base
  let r1 : Route := ⟨"POST", "/users/register", g0 ++ [HandlerTag.registerUserH]⟩
  let r2 : Route := ⟨"POST", "/users/login", g0 ++ [HandlerTag.loginH]⟩
  let g1 := g0 ++ [HandlerTag.middlewareAuth]
  let r3 : Route := ⟨"GET", "/users/", g1 ++ [HandlerTag.getAllH]⟩
  let r4 : Route := ⟨"GET", "/users/:id", g1 ++ [HandlerTag.getUserH]⟩
  let r5 : Route := ⟨"PATCH", "/users/:id", g1 ++ [HandlerTag.updateUserH]⟩
  let r6 : Route := ⟨"DELETE", "/users/:id", g1 ++ [HandlerTag.deleteUserH]⟩
  [r1, r2, r3, r4, r5, r6]

/-! Concrete fixtures used by counterexamples and witnesses. -/

/-- A concrete service-layer error (e.g. a database outage). -/
def errDB : GoError := ⟨"database offline"⟩

/-- A concrete UUID. -/
def uuid7 : UUID := ⟨7⟩

/-- A concrete well-formed register body (ID not yet populated). -/
def userCreate0 : UserCreate := ⟨⟨0⟩, 5⟩

/-- A concrete well-formed login body. -/
def userLogin0 : UserLogin := ⟨5⟩

/-- A concrete well-formed update body. -/
def userUpdate0 : UserUpdate := ⟨5⟩

/-- A service whose every method fails with `errDB`. -/
def svcAllFail : UserServiceM :=
  { register := fun _ => Except.error errDB,
    login := fun _ => Except.error errDB,
    getAllUser := Except.error errDB,
    updateUser := fun _ _ => some errDB,
    deleteUser := fun _ => some errDB,
    getByIdUser := fun _ => Except.error errDB }

/-- A service whose every method succeeds; `register` populates the `ID`
field with `uuid7`. -/
def svcAllOk : UserServiceM :=
  { register := fun d => Except.ok { d with ID := uuid7 },
    login := fun _ => Except.ok ⟨3⟩,
    getAllUser := Except.ok [⟨1⟩, ⟨2⟩],
    updateUser := fun _ _ => none,
    deleteUser := fun _ => none,
    getByIdUser := fun _ => Except.ok ⟨1⟩ }

/-- Helper: `ginJSON` always reports the status it was given. -/
theorem ginJSON_status (s : Nat) (p : Payload) : (ginJSON s p).status = s := by
  unfold ginJSON
  split <;> rfl

/-! Claim theorems. -/

/-- C1 counterexample: with a service whose `GetAllUser` fails with
`errDB`, `GetAllhandler` responds 400 with the invalid-request envelope
wrapping the error, not with the error value verbatim — refuting the
claim that every endpoint surfaces the service error unchanged. -/
theorem getAll_serviceError_not_verbatim :
    (GetAllhandler svcAllFail).fst
      = ginJSON StatusBadRequest (ErrInvalidRequest errDB) ∧
    (GetAllhandler svcAllFail).fst
      ≠ ginJSON StatusBadRequest (Payload.raw errDB) :=
  ⟨rfl, by decide⟩

/-- C1 (amended): every error returned by the UserService collaborator is
surfaced verbatim as the 400 response body for Register, Login, GetUser,
UpdateUser and DeleteUser; for ListUsers (`GetAllhandler`) the service
error is instead wrapped in the invalid-request envelope. -/
theorem serviceError_surfacing
    (svc : UserServiceM) (err : GoError) (dc : UserCreate) (dl : UserLogin)
    (du : UserUpdate) (u : UUID) :
    (svc.register dc = Except.error err →
      (RegisterUserHandler svc (Except.ok dc)).fst
        = ginJSON StatusBadRequest (Payload.raw err)) ∧
    (svc.login dl = Except.error err →
      (LoginHandler svc (Except.ok dl)).fst
        = ginJSON StatusBadRequest (Payload.raw err)) ∧
    (svc.getByIdUser u = Except.error err →
      (GetUserhandler svc (Except.ok u)).fst
        = ginJSON StatusBadRequest (Payload.raw err)) ∧
    (svc.updateUser u du = some err →
      (UpdateUserHandler svc (Except.ok u) (Except.ok du)).fst
        = ginJSON StatusBadRequest (Payload.raw err)) ∧
    (svc.deleteUser u = some err →
      (DeleteUserHandler svc (Except.ok u)).fst
        = ginJSON StatusBadRequest (Payload.raw err)) ∧
    (svc.getAllUser = Except.error err →
      (GetAllhandler svc).fst
        = ginJSON StatusBadRequest (ErrInvalidRequest err)) := by
  refine ⟨?_, ?_, ?_, ?_, ?_, ?_⟩ <;> intro h
  · simp [RegisterUserHandler, h]
  · simp [LoginHandler, h]
  · simp [GetUserhandler, h]
  · simp [UpdateUserHandler, h]
  · simp [DeleteUserHandler, h]
  · simp [GetAllhandler, h]

/-- C1 witness: the amended claim applied to the all-failing service. -/
theorem serviceError_surfacing_witness :
    (RegisterUserHandler svcAllFail (Except.ok userCreate0)).fst
      = ginJSON StatusBadRequest (Payload.raw errDB) ∧
    (LoginHandler svcAllFail (Except.ok userLogin0)).fst
      = ginJSON StatusBadRequest (Payload.raw errDB) ∧
    (GetUserhandler svcAllFail (Except.ok uuid7)).fst
      = ginJSON StatusBadRequest (Payload.raw errDB) ∧
    (UpdateUserHandler svcAllFail (Except.ok uuid7) (Except.ok userUpdate0)).fst
      = ginJSON StatusBadRequest (Payload.raw errDB) ∧
    (DeleteUserHandler svcAllFail (Except.ok uuid7)).fst
      = ginJSON StatusBadRequest (Payload.raw errDB) ∧
    (GetAllhandler svcAllFail).fst
      = ginJSON StatusBadRequest (ErrInvalidRequest errDB) :=
  let T := serviceError_surfacing svcAllFail errDB userCreate0 userLogin0
    userUpdate0 uuid7
  ⟨T.1 rfl, T.2.1 rfl, T.2.2.1 rfl, T.2.2.2.1 rfl, T.2.2.2.2.1 rfl,
   T.2.2.2.2.2 rfl⟩

/-- C2: for every Register, Login or UpdateUser request whose JSON body
fails to bind, the handler responds 400 with the uniform invalid-request
envelope and the UserService collaborator is never invoked. For Register,
Login, and UpdateUser with a parsed path id, the envelope wraps the bind
error itself; for UpdateUser under any path-parse outcome the response is
still a 400 invalid-request envelope and the service is not called. -/
theorem bindFailure_envelope_noService
    (svc : UserServiceM) (err : GoError) (u : UUID)
    (p : Except GoError UUID) :
    RegisterUserHandler svc (Except.error err)
      = (ginJSON StatusBadRequest (ErrInvalidRequest err), [Call.bind]) ∧
    Call.svcRegister ∉ (RegisterUserHandler svc (Except.error err)).snd ∧
    LoginHandler svc (Except.error err)
      = (ginJSON StatusBadRequest (ErrInvalidRequest err), [Call.bind]) ∧
    Call.svcLogin ∉ (LoginHandler svc (Except.error err)).snd ∧
    UpdateUserHandler svc (Except.ok u) (Except.error err)
      = (ginJSON StatusBadRequest (ErrInvalidRequest err),
         [Call.uuidParse, Call.bind]) ∧
    ((UpdateUserHandler svc p (Except.error err)).fst.status
        = StatusBadRequest ∧
     (∃ e, (UpdateUserHandler svc p (Except.error err)).fst.body
        = some (ErrInvalidRequest e)) ∧
     Call.svcUpdate ∉ (UpdateUserHandler svc p (Except.error err)).snd) := by
  refine ⟨rfl, by simp [RegisterUserHandler], rfl, by simp [LoginHandler],
    rfl, ?_⟩
  rcases p with e | u'
  · exact ⟨rfl, ⟨e, rfl⟩, by simp [UpdateUserHandler]⟩
  · exact ⟨rfl, ⟨err, rfl⟩, by simp [UpdateUserHandler]⟩

/-- C3: for every GetUser, UpdateUser or DeleteUser request whose path id
does not parse as a UUID, the handler responds 400 with the invalid-request
envelope and the UserService collaborator is never invoked. -/
theorem uuidFailure_envelope_noService
    (svc : UserServiceM) (err : GoError) (b : Except GoError UserUpdate) :
    GetUserhandler svc (Except.error err)
      = (ginJSON StatusBadRequest (ErrInvalidRequest err), [Call.uuidParse]) ∧
    Call.svcGetById ∉ (GetUserhandler svc (Except.error err)).snd ∧
    UpdateUserHandler svc (Except.error err) b
      = (ginJSON StatusBadRequest (ErrInvalidRequest err), [Call.uuidParse]) ∧
    Call.svcUpdate ∉ (UpdateUserHandler svc (Except.error err) b).snd ∧
    DeleteUserHandler svc (Except.error err)
      = (ginJSON StatusBadRequest (ErrInvalidRequest err), [Call.uuidParse]) ∧
    Call.svcDelete ∉ (DeleteUserHandler svc (Except.error err)).snd :=
  ⟨rfl, by simp [GetUserhandler], rfl, by simp [UpdateUserHandler], rfl,
   by simp [DeleteUserHandler]⟩

/-- C4: for every well-formed Register body, if `UserService.Register`
succeeds (returning the body with its id populated), the handler responds
201 with the uniform success envelope containing that id. -/
theorem register_success_201
    (svc : UserServiceM) (d d' : UserCreate)
    (h : svc.register d = Except.ok d') :
    RegisterUserHandler svc (Except.ok d)
      = (ginJSON StatusCreated (SimpleSuccessResponse (Value.id d'.ID)),
         [Call.bind, Call.svcRegister]) := by
  simp [RegisterUserHandler, h]

/-- C4 witness: the succeeding service populates the id `uuid7` and the
handler returns it in a 201 success envelope. -/
theorem register_success_201_witness :
    RegisterUserHandler svcAllOk (Except.ok userCreate0)
      = (ginJSON StatusCreated (SimpleSuccessResponse (Value.id uuid7)),
         [Call.bind, Call.svcRegister]) :=
  register_success_201 svcAllOk userCreate0 { userCreate0 with ID := uuid7 } rfl

/-- C5: for every DeleteUser request with a parsed UUID path id, if
`UserService.DeleteUser` succeeds the handler responds 204 with an empty
body. -/
theorem deleteUser_success_204_empty
    (svc : UserServiceM) (u : UUID) (h : svc.deleteUser u = none) :
    (DeleteUserHandler svc (Except.ok u)).fst.status = StatusNoContent ∧
    (DeleteUserHandler svc (Except.ok u)).fst.body = none := by
  simp [DeleteUserHandler, h, ginJSON, bodyAllowedForStatus, StatusNoContent]

/-- C5 witness: deleting `uuid7` against the all-succeeding service. -/
theorem deleteUser_success_204_empty_witness :
    (DeleteUserHandler svcAllOk (Except.ok uuid7)).fst.status
      = StatusNoContent ∧
    (DeleteUserHandler svcAllOk (Except.ok uuid7)).fst.body = none :=
  deleteUser_success_204_empty svcAllOk uuid7 rfl

/-- C6 counterexample: a successful DeleteUser response carries no body at
all, so it does not use the uniform success envelope — refuting the claim
that GetUser is the only endpoint whose success shape differs from the
envelope. -/
theorem delete_success_not_envelope :
    (DeleteUserHandler svcAllOk (Except.ok uuid7)).fst.body = none ∧
    ¬ ∃ v, (DeleteUserHandler svcAllOk (Except.ok uuid7)).fst.body
        = some (SimpleSuccessResponse v) := by
  refine ⟨rfl, ?_⟩
  rintro ⟨v, hv⟩
  rw [show (DeleteUserHandler svcAllOk (Except.ok uuid7)).fst.body = none
      from rfl] at hv
  exact Option.noConfusion hv

/-- C6 (amended): successful Register, Login, ListUsers and UpdateUser
responses use the uniform success envelope; a successful GetUser wraps the
raw User in the generic keyed object (a shape distinct from the success
envelope); and a successful DeleteUser carries no body at all, so both
GetUser and DeleteUser deviate from the uniform envelope. -/
theorem success_shapes
    (svc : UserServiceM) (dc dc' : UserCreate) (dl : UserLogin)
    (du : UserUpdate) (u : UUID) (t : Token) (l : List User) (usr : User) :
    (svc.register dc = Except.ok dc' →
      (RegisterUserHandler svc (Except.ok dc)).fst.body
        = some (SimpleSuccessResponse (Value.id dc'.ID))) ∧
    (svc.login dl = Except.ok t →
      (LoginHandler svc (Except.ok dl)).fst.body
        = some (SimpleSuccessResponse (Value.token t))) ∧
    (svc.getAllUser = Except.ok l →
      (GetAllhandler svc).fst.body
        = some (SimpleSuccessResponse (Value.users l))) ∧
    (svc.updateUser u du = none →
      (UpdateUserHandler svc (Except.ok u) (Except.ok du)).fst.body
        = some (SimpleSuccessResponse (Value.id u))) ∧
    (svc.getByIdUser u = Except.ok usr →
      (GetUserhandler svc (Except.ok u)).fst.body
        = some (Payload.dataWrap (Value.user usr)) ∧
      ∀ v, Payload.dataWrap (Value.user usr) ≠ SimpleSuccessResponse v) ∧
    (svc.deleteUser u = none →
      (DeleteUserHandler svc (Except.ok u)).fst.body = none) := by
  refine ⟨?_, ?_, ?_, ?_, ?_, ?_⟩ <;> intro h
  · simp [RegisterUserHandler, h, ginJSON, bodyAllowedForStatus,
      StatusCreated]
  · simp [LoginHandler, h, ginJSON, bodyAllowedForStatus, StatusOK]
  · simp [GetAllhandler, h, ginJSON, bodyAllowedForStatus, StatusOK]
  · simp [UpdateUserHandler, h, ginJSON, bodyAllowedForStatus, StatusOK]
  · refine ⟨?_, ?_⟩
    · simp [GetUserhandler, h, ginJSON, bodyAllowedForStatus, StatusOK]
    · intro v hv
      exact Payload.noConfusion hv
  · simp [DeleteUserHandler, h, ginJSON, bodyAllowedForStatus,
      StatusNoContent]

/-- C6 witness: the amended claim applied to the all-succeeding service. -/
theorem success_shapes_witness :
    (RegisterUserHandler svcAllOk (Except.ok userCreate0)).fst.body
      = some (SimpleSuccessResponse (Value.id uuid7)) ∧
    (LoginHandler svcAllOk (Except.ok userLogin0)).fst.body
      = some (SimpleSuccessResponse (Value.token ⟨3⟩)) ∧
    (GetAllhandler svcAllOk).fst.body
      = some (SimpleSuccessResponse (Value.users [⟨1⟩, ⟨2⟩])) ∧
    (UpdateUserHandler svcAllOk (Except.ok uuid7)
        (Except.ok userUpdate0)).fst.body
      = some (SimpleSuccessResponse (Value.id uuid7)) ∧
    (GetUserhandler svcAllOk (Except.ok uuid7)).fst.body
      = some (Payload.dataWrap (Value.user ⟨1⟩)) ∧
    (DeleteUserHandler svcAllOk (Except.ok uuid7)).fst.body = none :=
  let T := success_shapes svcAllOk userCreate0
    { userCreate0 with ID := uuid7 } userLogin0 userUpdate0 uuid7 ⟨3⟩
    [⟨1⟩, ⟨2⟩] ⟨1⟩
  ⟨T.1 rfl, T.2.1 rfl, T.2.2.1 rfl, T.2.2.2.1 rfl, (T.2.2.2.2.1 rfl).1,
   T.2.2.2.2.2 rfl⟩

/-- C7: GetUser is idempotent and deterministic: two GetUser requests with
the same path-parse outcome against the same unchanged service produce
identical response statuses and identical response bodies. -/
theorem getUser_idempotent
    (svc : UserServiceM) (p q : Except GoError UUID) (h : p = q) :
    (GetUserhandler svc p).fst.status = (GetUserhandler svc q).fst.status ∧
    (GetUserhandler svc p).fst.body = (GetUserhandler svc q).fst.body := by
  subst h
  exact ⟨rfl, rfl⟩

/-- C7 witness: two identical GetUser requests for `uuid7`. -/
theorem getUser_idempotent_witness :
    (GetUserhandler svcAllOk (Except.ok uuid7)).fst.status
      = (GetUserhandler svcAllOk (Except.ok uuid7)).fst.status ∧
    (GetUserhandler svcAllOk (Except.ok uuid7)).fst.body
      = (GetUserhandler svcAllOk (Except.ok uuid7)).fst.body :=
  getUser_idempotent svcAllOk (Except.ok uuid7) (Except.ok uuid7) rfl

/-- C8: in `NewUserHandler`, provided the injected parent group does not
already carry the authentication middleware, the registered chains place
the middleware immediately before the endpoint handler for ListUsers,
GetUser, UpdateUser and DeleteUser, and the chains for Register and Login
do not contain it at all. -/
theorem routes_auth_gate
    (base : List HandlerTag)
    (hb : HandlerTag.middlewareAuth ∉ base) :
    NewUserHandler base
      = [⟨"POST", "/users/register", base ++ [HandlerTag.registerUserH]⟩,
         ⟨"POST", "/users/login", base ++ [HandlerTag.loginH]⟩,
         ⟨"GET", "/users/",
          base ++ [HandlerTag.middlewareAuth, HandlerTag.getAllH]⟩,
         ⟨"GET", "/users/:id",
          base ++ [HandlerTag.middlewareAuth, HandlerTag.getUserH]⟩,
         ⟨"PATCH", "/users/:id",
          base ++ [HandlerTag.middlewareAuth, HandlerTag.updateUserH]⟩,
         ⟨"DELETE", "/users/:id",
          base ++ [HandlerTag.middlewareAuth, HandlerTag.deleteUserH]⟩] ∧
    HandlerTag.middlewareAuth ∉ base ++ [HandlerTag.registerUserH] ∧
    HandlerTag.middlewareAuth ∉ base ++ [HandlerTag.loginH] := by
  refine ⟨?_, ?_, ?_⟩
  · simp [NewUserHandler]
  · simp [List.mem_append, hb]
  · simp [List.mem_append, hb]

/-- C8 witness: route registration under an empty parent middleware
list. -/
theorem routes_auth_gate_witness :
    NewUserHandler []
      = [⟨"POST", "/users/register", [HandlerTag.registerUserH]⟩,
         ⟨"POST", "/users/login", [HandlerTag.loginH]⟩,
         ⟨"GET", "/users/",
          [HandlerTag.middlewareAuth, HandlerTag.getAllH]⟩,
         ⟨"GET", "/users/:id",
          [HandlerTag.middlewareAuth, HandlerTag.getUserH]⟩,
         ⟨"PATCH", "/users/:id",
          [HandlerTag.middlewareAuth, HandlerTag.updateUserH]⟩,
         ⟨"DELETE", "/users/:id",
          [HandlerTag.middlewareAuth, HandlerTag.deleteUserH]⟩] ∧
    HandlerTag.middlewareAuth ∉ [HandlerTag.registerUserH] ∧
    HandlerTag.middlewareAuth ∉ [HandlerTag.loginH] :=
  routes_auth_gate [] (by simp)

/-- C9: in UpdateUser the path-UUID check strictly precedes body binding:
whenever the path id fails to parse, the handler responds 400 with the
invalid-request envelope wrapping the UUID parse error, and `ShouldBind`
is never invoked, whatever the body's bind outcome would have been. -/
theorem updateUser_uuid_before_bind
    (svc : UserServiceM) (err : GoError) (b : Except GoError UserUpdate) :
    UpdateUserHandler svc (Except.error err) b
      = (ginJSON StatusBadRequest (ErrInvalidRequest err),
         [Call.uuidParse]) ∧
    Call.bind ∉ (UpdateUserHandler svc (Except.error err) b).snd :=
  ⟨rfl, by simp [UpdateUserHandler]⟩

/-- C10: every response emitted by any of the six handlers has a status in
{200, 201, 204, 400}; in particular no handler ever emits a 5xx status,
even when the UserService collaborator fails. -/
theorem handler_status_range
    (svc : UserServiceM) (bc : Except GoError UserCreate)
    (bl : Except GoError UserLogin) (bu : Except GoError UserUpdate)
    (p : Except GoError UUID) :
    (RegisterUserHandler svc bc).fst.status ∈ [200, 201, 204, 400] ∧
    (LoginHandler svc bl).fst.status ∈ [200, 201, 204, 400] ∧
    (GetAllhandler svc).fst.status ∈ [200, 201, 204, 400] ∧
    (GetUserhandler svc p).fst.status ∈ [200, 201, 204, 400] ∧
    (UpdateUserHandler svc p bu).fst.status ∈ [200, 201, 204, 400] ∧
    (DeleteUserHandler svc p).fst.status ∈ [200, 201, 204, 400] := by
  refine ⟨?_, ?_, ?_, ?_, ?_, ?_⟩
  · rcases bc with e | d
    · simp [RegisterUserHandler, ginJSON_status, StatusBadRequest]
    · rcases h : svc.register d with e | d' <;>
        simp [RegisterUserHandler, h, ginJSON_status, StatusBadRequest,
          StatusCreated]
  · rcases bl with e | d
    · simp [LoginHandler, ginJSON_status, StatusBadRequest]
    · rcases h : svc.login d with e | t <;>
        simp [LoginHandler, h, ginJSON_status, StatusBadRequest, StatusOK]
  · rcases h : svc.getAllUser with e | l <;>
      simp [GetAllhandler, h, ginJSON_status, StatusBadRequest, StatusOK]
  · rcases p with e | u
    · simp [GetUserhandler, ginJSON_status, StatusBadRequest]
    · rcases h : svc.getByIdUser u with e | usr <;>
        simp [GetUserhandler, h, ginJSON_status, StatusBadRequest, StatusOK]
  · rcases p with e | u
    · simp [UpdateUserHandler, ginJSON_status, StatusBadRequest]
    · rcases bu with e | d
      · simp [UpdateUserHandler, ginJSON_status, StatusBadRequest]
      · rcases h : svc.updateUser u d with _ | e <;>
          simp [UpdateUserHandler, h, ginJSON_status, StatusBadRequest,
            StatusOK]
  · rcases p with e | u
    · simp [DeleteUserHandler, ginJSON_status, StatusBadRequest]
    · rcases h : svc.deleteUser u with _ | e <;>
        simp [DeleteUserHandler, h, ginJSON_status, StatusBadRequest,
          StatusNoContent]

end TodoApp
